import Mathlib

/-!
Verification of the assessment-scoring and crisis-gate core of the
mental-wellness backend (`backend/api/views.py`).

The Python functions `grade_phq9`, `assessment_submit` (its validation and
scoring body), `contains_sensitive` and `chat` are embedded as executable
Lean definitions below; the theorems at the end of the file settle the
specification claims about them.
-/

namespace WellnessBackend

/-- Python `str.lower()` as applied in `contains_sensitive` (views.py line 242):
character-wise lowering of the text. -/
def pyLower (s : String) : String := ⟨s.data.map Char.toLower⟩

/-- Python `str.strip()` as applied in `chat` (views.py line 258): drop leading
and trailing whitespace. -/
def pyStrip (s : String) : String :=
  ⟨((s.data.dropWhile Char.isWhitespace).reverse.dropWhile Char.isWhitespace).reverse⟩

/-- An element of the submitted JSON `answers` list, abstracted to what
`assessment_submit` observes about it: either Python `int(x)` succeeds and
yields an integer, or it raises. -/
inductive PyVal where
  | intVal (n : Int)
  | nonInt
deriving DecidableEq

/-- Result of Python `int(x)` on one element: `some n` when coercible. -/
def PyVal.toInt? : PyVal → Option Int
  | .intVal n => some n
  | .nonInt => none

/-- Models `answers = [int(x) for x in answers]` inside `try/except`
(views.py lines 200-203): succeeds only when every element is coercible. -/
def toIntAll : List PyVal → Option (List Int)
  | [] => some []
  | v :: vs =>
    match v.toInt?, toIntAll vs with
    | some n, some ns => some (n :: ns)
    | _, _ => none

/-- `grade_phq9` (views.py lines 178-187): the PHQ-9 severity band of a total
score, an ordered sequence of `<=` tests, first match wins. -/
def grade_phq9 (total : Int) : String :=
  if total ≤ 4 then "none-minimal"
  else if total ≤ 9 then "mild"
  else if total ≤ 14 then "moderate"
  else if total ≤ 19 then "moderately severe"
  else "severe"

/-- The static `ai.summary` placeholder text (views.py line 215). -/
def AI_SUMMARY : String := "Placeholder: AI will generate personalized summary later."

/-- The static `ai.recommendations` list (views.py line 216). -/
def AI_RECOMMENDATIONS : List String :=
  ["Example: daily mood check-in", "Example: 3-minute breathing exercise",
   "Example: cognitive restructuring twice weekly"]

/-- The `ai` sub-record attached to an assessment (views.py lines 214-218). -/
structure AssessmentAi where
  summary : String
  recommendations : List String
  risk_level : String
deriving DecidableEq

/-- The assessment record built by `assessment_submit` (views.py lines 209-220).
The `at` timestamp field is named `recordedAt` here. -/
structure AssessmentRecord where
  answers : List Int
  total : Int
  level : String
  crisis : Bool
  ai : AssessmentAi
  recordedAt : String
deriving DecidableEq

/-- The validation and scoring body of `assessment_submit` (views.py lines
196-223), after the `answers` list has been extracted from the payload.
`now` stands for `datetime.utcnow().isoformat()`. The three `Response(...,
status=400)` rejections become `Except.error` with the same message. -/
def assessment_submit (answersRaw : List PyVal) (now : String) :
    Except String AssessmentRecord :=
  if answersRaw.length ≠ 9 then
    .error "Invalid parameters: should be 9 scores from 0-3"
  else
    match toIntAll answersRaw with
    | none => .error "Invalid parameters: scores must be integers"
    | some answers =>
      if answers.any (fun x => x < 0 || x > 3) then
        .error "Invalid parameters: each score must be 0-3"
      else
        let total := answers.sum
        let level := grade_phq9 total
        let crisis : Bool := decide (answers[8]! > 0)
        .ok {
          answers := answers
          total := total
          level := level
          crisis := crisis
          ai := {
            summary := AI_SUMMARY
            recommendations := AI_RECOMMENDATIONS
            risk_level := if crisis then "high" else if total ≥ 15 then "moderate" else "low"
          }
          recordedAt := now
        }

/-- The fixed bilingual keyword list of `contains_sensitive`
(views.py lines 243-246). -/
def SENSITIVE_KEYWORDS : List String :=
  ["suicide", "don\x27t want to live", "kill myself", "end my life",
   "不想活", "想自杀", "自杀", "轻生", "寻短见", "活不下去"]

/-- `contains_sensitive` (views.py lines 239-247). The argument is an
`Option String` so that Python `None` is representable; `if not text` is
true exactly for `None` and the empty string. Otherwise the text is
lower-cased and each keyword is tested for substring containment. -/
def contains_sensitive : Option String → Bool
  | none => false
  | some text =>
    if text = "" then false
    else
      let t := pyLower text
      SENSITIVE_KEYWORDS.any (fun k => decide (k.data <:+: t.data))

/-- One stored chat exchange (views.py lines 298-302); the `at` field is
named `recordedAt` here. -/
structure ChatRecord where
  message : String
  response : String
  recordedAt : String
deriving DecidableEq

/-- Result of `ai_service.generate_response` as consumed by `chat`
(views.py lines 294-322): a success flag, a message, and a model name. -/
structure GenResult where
  success : Bool
  message : String
  model : String

/-- The generation backend as `chat` sees it: availability plus a response
generator taking the message and the (role, content) context pairs. -/
structure AiService where
  is_available : Bool
  generate_response : String → List (String × String) → GenResult

/-- Modelled from the spec: the generation backend (`ai_service`, whose module
is not part of the verified sources) returns either a generated reply or a
failure indication carrying a non-empty fallback message, so the caller always
receives a non-empty message when generation is unsuccessful. -/
def AiService.FallbackNonEmpty (svc : AiService) : Prop :=
  ∀ m ctx, (svc.generate_response m ctx).success = false →
    (svc.generate_response m ctx).message ≠ ""

/-- The response value produced by `chat`: a 400 rejection, the crisis
short-circuit payload, or a support message (with the model name on the
generated path). -/
inductive ChatResponse where
  | reject (message : String)
  | crisis (message : String) (hotlines : List (String × String))
  | support (message : String) (model : Option String)
deriving DecidableEq

/-- What one call to `chat` yields: the HTTP response value, the per-client
chat history after the call (`CLIENT_CHATS[cid]`), and whether
`ai_service.generate_response` was invoked during the call. -/
structure ChatOutcome where
  response : ChatResponse
  chats : List ChatRecord
  aiInvoked : Bool

/-- The fixed crisis safety message (views.py line 269). -/
def CRISIS_MESSAGE : String :=
  "I hear that you are in great pain and even having thoughts of hurting yourself. Your safety is most important. Please immediately contact someone you trust or professional crisis support."

/-- The fixed crisis hotline entries (views.py lines 270-274). -/
def CRISIS_HOTLINES : List (String × String) :=
  [("Crisis hotline", "Contact local crisis hotline"),
   ("Emergency services", "Contact local emergency services"),
   ("Campus/community counseling", "Contact local organization")]

/-- The fixed fallback message returned when the AI service is unavailable
(views.py line 283). -/
def FALLBACK_UNAVAILABLE : String :=
  "I understand this time has been difficult for you. Take three deep breaths and give yourself some space. If you\x27d like, you can try the breathing timer or cognitive restructuring in the \"Self-help Tools\", or we can continue talking about what\x27s troubling you."

/-- Python `l[-n:]`: the last `n` elements of a list (all of it when shorter). -/
def lastN (n : Nat) (l : List α) : List α := l.drop (l.length - n)

/-- The context built from the stored history (views.py lines 288-291): a
user/assistant (role, content) pair per recorded exchange. -/
def chatContext : List ChatRecord → List (String × String)
  | [] => []
  | c :: rest => ("user", c.message) :: ("assistant", c.response) :: chatContext rest

/-- The body of `chat` (views.py lines 252-322) after client-id resolution,
for one client: `history` is `CLIENT_CHATS[cid]` before the call, `rawMessage`
the payload message, `now` stands for `datetime.utcnow().isoformat()`. -/
def chat (svc : AiService) (now : String) (history : List ChatRecord)
    (rawMessage : String) : ChatOutcome :=
  let message := pyStrip rawMessage
  if message = "" then
    ⟨.reject "Message cannot be empty", history, false⟩
  else if contains_sensitive (some message) then
    ⟨.crisis CRISIS_MESSAGE CRISIS_HOTLINES, history, false⟩
  else if svc.is_available = false then
    ⟨.support FALLBACK_UNAVAILABLE none, history, false⟩
  else
    let context := chatContext (lastN 10 history)
    let r := svc.generate_response message context
    if r.success then
      let updated := history ++ [⟨message, r.message, now⟩]
      let trimmed := if updated.length > 50 then lastN 50 updated else updated
      ⟨.support r.message (some r.model), trimmed, true⟩
    else
      ⟨.support r.message none, history, true⟩

end WellnessBackend

namespace WellnessBackend

/-- Coercing a list that is already made of integers succeeds and returns the
integers unchanged. -/
theorem toIntAll_map_intVal (l : List Int) : toIntAll (l.map PyVal.intVal) = some l := by
  induction l with
  | nil => rfl
  | cons a t ih => simp [toIntAll, PyVal.toInt?, ih]

/-- When all three validation guards pass, `assessment_submit` returns the
fully determined record. -/
theorem assessment_submit_ok (xs : List PyVal) (ans : List Int) (now : String)
    (hlen : xs.length = 9) (htoi : toIntAll xs = some ans)
    (hany : ans.any (fun x => x < 0 || x > 3) = false) :
    assessment_submit xs now = Except.ok {
      answers := ans
      total := ans.sum
      level := grade_phq9 ans.sum
      crisis := decide (ans[8]! > 0)
      ai := {
        summary := AI_SUMMARY
        recommendations := AI_RECOMMENDATIONS
        risk_level := if decide (ans[8]! > 0) then "high"
          else if ans.sum ≥ 15 then "moderate" else "low"
      }
      recordedAt := now
    } := by
  simp [assessment_submit, hlen, htoi, hany]

/-- A 9-element integer vector with entries in [0,3] passes every guard of
`assessment_submit`. -/
theorem assessment_submit_valid (answers : List Int) (now : String)
    (h9 : answers.length = 9) (hr : ∀ x ∈ answers, 0 ≤ x ∧ x ≤ 3) :
    assessment_submit (answers.map PyVal.intVal) now = Except.ok {
      answers := answers
      total := answers.sum
      level := grade_phq9 answers.sum
      crisis := decide (answers[8]! > 0)
      ai := {
        summary := AI_SUMMARY
        recommendations := AI_RECOMMENDATIONS
        risk_level := if decide (answers[8]! > 0) then "high"
          else if answers.sum ≥ 15 then "moderate" else "low"
      }
      recordedAt := now
    } := by
  refine assessment_submit_ok _ _ _ (by simpa using h9) (toIntAll_map_intVal answers) ?_
  rw [List.any_eq_false]
  intro x hx
  have h := hr x hx
  simp only [Bool.or_eq_true, decide_eq_true_eq]
  omega

/-- C1: for every validated answer vector, the crisis flag is true iff the
ninth answer (index 8) is strictly positive, whatever the other answers and
the total are. -/
theorem crisis_iff_item9_positive (answers : List Int) (now : String)
    (h9 : answers.length = 9) (hr : ∀ x ∈ answers, 0 ≤ x ∧ x ≤ 3) :
    ∃ rec, assessment_submit (answers.map PyVal.intVal) now = Except.ok rec ∧
      (rec.crisis = true ↔ answers[8]! > 0) := by
  refine ⟨_, assessment_submit_valid answers now h9 hr, ?_⟩
  simp

/-- C1 witness: the vector [0,0,0,0,0,0,0,0,1]. -/
theorem crisis_iff_item9_positive_witness :
    ∃ rec, assessment_submit (([0,0,0,0,0,0,0,0,1] : List Int).map PyVal.intVal) "t" =
        Except.ok rec ∧
      (rec.crisis = true ↔ ([0,0,0,0,0,0,0,0,1] : List Int)[8]! > 0) :=
  crisis_iff_item9_positive [0,0,0,0,0,0,0,0,1] "t" (by decide) (by decide)

/-- C2: the risk level is high whenever the crisis flag holds (even below
total 15), otherwise moderate from total 15 upward, otherwise low; and it is
a function of the crisis flag and the total only. -/
theorem risk_level_spec (a b : List Int) (na nb : String)
    (ha9 : a.length = 9) (har : ∀ x ∈ a, 0 ≤ x ∧ x ≤ 3)
    (hb9 : b.length = 9) (hbr : ∀ x ∈ b, 0 ≤ x ∧ x ≤ 3) :
    ∃ ra rb, assessment_submit (a.map PyVal.intVal) na = Except.ok ra ∧
      assessment_submit (b.map PyVal.intVal) nb = Except.ok rb ∧
      (ra.crisis = true → ra.ai.risk_level = "high") ∧
      (ra.crisis = false → 15 ≤ ra.total → ra.ai.risk_level = "moderate") ∧
      (ra.crisis = false → ra.total < 15 → ra.ai.risk_level = "low") ∧
      (ra.crisis = rb.crisis → ra.total = rb.total →
        ra.ai.risk_level = rb.ai.risk_level) := by
  refine ⟨_, _, assessment_submit_valid a na ha9 har,
    assessment_submit_valid b nb hb9 hbr, ?_, ?_, ?_, ?_⟩
  · intro hc
    simp only at hc ⊢
    rw [if_pos hc]
  · intro hc h15
    simp only at hc h15 ⊢
    rw [if_neg (by simp [hc]), if_pos h15]
  · intro hc h15
    simp only at hc h15 ⊢
    rw [if_neg (by simp [hc]), if_neg (by omega)]
  · intro hce hte
    simp only at hce hte ⊢
    rw [hce, hte]

/-- C2 witness: the vectors [0,0,0,0,0,0,0,0,3] (crisis, total 3) and
[3,0,0,0,0,0,0,0,0] (no crisis, total 3). -/
theorem risk_level_spec_witness :
    ∃ ra rb, assessment_submit (([0,0,0,0,0,0,0,0,3] : List Int).map PyVal.intVal) "t" =
        Except.ok ra ∧
      assessment_submit (([3,0,0,0,0,0,0,0,0] : List Int).map PyVal.intVal) "u" =
        Except.ok rb ∧
      (ra.crisis = true → ra.ai.risk_level = "high") ∧
      (ra.crisis = false → 15 ≤ ra.total → ra.ai.risk_level = "moderate") ∧
      (ra.crisis = false → ra.total < 15 → ra.ai.risk_level = "low") ∧
      (ra.crisis = rb.crisis → ra.total = rb.total →
        ra.ai.risk_level = rb.ai.risk_level) :=
  risk_level_spec [0,0,0,0,0,0,0,0,3] [3,0,0,0,0,0,0,0,0] "t" "u"
    (by decide) (by decide) (by decide) (by decide)

/-- C7: for every validated answer vector the total is the exact sum of the
nine answers and lies between 0 and 27. -/
theorem total_is_exact_sum (answers : List Int) (now : String)
    (h9 : answers.length = 9) (hr : ∀ x ∈ answers, 0 ≤ x ∧ x ≤ 3) :
    ∃ rec, assessment_submit (answers.map PyVal.intVal) now = Except.ok rec ∧
      rec.total = answers.sum ∧ 0 ≤ rec.total ∧ rec.total ≤ 27 := by
  refine ⟨_, assessment_submit_valid answers now h9 hr, rfl, ?_, ?_⟩
  · exact List.sum_nonneg fun x hx => (hr x hx).1
  · have h := List.sum_le_card_nsmul answers 3 fun x hx => (hr x hx).2
    rw [h9] at h
    simpa using h

/-- C7 witness: the all-threes vector, total 27. -/
theorem total_is_exact_sum_witness :
    ∃ rec, assessment_submit (([3,3,3,3,3,3,3,3,3] : List Int).map PyVal.intVal) "t" =
        Except.ok rec ∧
      rec.total = ([3,3,3,3,3,3,3,3,3] : List Int).sum ∧ 0 ≤ rec.total ∧ rec.total ≤ 27 :=
  total_is_exact_sum [3,3,3,3,3,3,3,3,3] "t" (by decide) (by decide)

/-- C6: `assessment_submit` rejects exactly the inputs whose length differs
from 9, or that contain a non-integer-coercible element, or whose coerced
values leave [0,3]; accepted inputs are scored on the coerced values exactly,
never clamped. -/
theorem validation_spec (xs : List PyVal) (now : String) :
    ((∃ e, assessment_submit xs now = Except.error e) ↔
      (xs.length ≠ 9 ∨ toIntAll xs = none ∨
        ∃ ans, toIntAll xs = some ans ∧ ∃ x ∈ ans, (x < 0 ∨ 3 < x))) ∧
    (∀ rec, assessment_submit xs now = Except.ok rec →
      toIntAll xs = some rec.answers ∧ rec.total = rec.answers.sum) := by
  by_cases hlen : xs.length = 9
  · cases htoi : toIntAll xs with
    | none =>
      have heq : assessment_submit xs now =
          Except.error "Invalid parameters: scores must be integers" := by
        simp [assessment_submit, hlen, htoi]
      refine ⟨⟨fun _ => Or.inr (Or.inl rfl), fun _ => ⟨_, heq⟩⟩, ?_⟩
      intro rec hrec
      rw [heq] at hrec
      exact absurd hrec (by simp)
    | some ans =>
      by_cases hbad : ∃ x ∈ ans, (x < 0 ∨ 3 < x)
      · have hany : ans.any (fun x => x < 0 || x > 3) = true := by
          rw [List.any_eq_true]
          obtain ⟨x, hx, hor⟩ := hbad
          refine ⟨x, hx, ?_⟩
          simp only [Bool.or_eq_true, decide_eq_true_eq]
          omega
        have heq : assessment_submit xs now =
            Except.error "Invalid parameters: each score must be 0-3" := by
          simp [assessment_submit, hlen, htoi, hany]
        refine ⟨⟨fun _ => Or.inr (Or.inr ⟨ans, rfl, hbad⟩), fun _ => ⟨_, heq⟩⟩, ?_⟩
        intro rec hrec
        rw [heq] at hrec
        exact absurd hrec (by simp)
      · have hany : ans.any (fun x => x < 0 || x > 3) = false := by
          rw [List.any_eq_false]
          intro x hx
          simp only [Bool.or_eq_true, decide_eq_true_eq]
          intro hcon
          exact hbad ⟨x, hx, by omega⟩
        have heq := assessment_submit_ok xs ans now hlen htoi hany
        refine ⟨⟨?_, ?_⟩, ?_⟩
        · rintro ⟨e, he⟩
          rw [heq] at he
          exact absurd he (by simp)
        · rintro (h | h | ⟨ans', hsome, hbad'⟩)
          · exact absurd hlen h
          · exact absurd h (by simp)
          · injection hsome with h
            subst h
            exact absurd hbad' hbad
        · intro rec hrec
          rw [heq] at hrec
          injection hrec with h
          subst h
          exact ⟨rfl, rfl⟩
  · have heq : assessment_submit xs now =
        Except.error "Invalid parameters: should be 9 scores from 0-3" := by
      simp [assessment_submit, hlen]
    refine ⟨⟨fun _ => Or.inl hlen, fun _ => ⟨_, heq⟩⟩, ?_⟩
    intro rec hrec
    rw [heq] at hrec
    exact absurd hrec (by simp)

/-- C6 witness: a length-8 vector is rejected and a valid vector is accepted
with its exact values. -/
theorem validation_spec_witness :
    (∃ e, assessment_submit (([0,0,0,0,0,0,0,0] : List Int).map PyVal.intVal) "t" =
      Except.error e) ∧
    ∀ rec, assessment_submit (([1,1,1,1,1,1,1,1,1] : List Int).map PyVal.intVal) "t" =
        Except.ok rec →
      toIntAll (([1,1,1,1,1,1,1,1,1] : List Int).map PyVal.intVal) = some rec.answers ∧
        rec.total = rec.answers.sum :=
  ⟨(validation_spec (([0,0,0,0,0,0,0,0] : List Int).map PyVal.intVal) "t").1.mpr
      (Or.inl (by decide)),
    (validation_spec (([1,1,1,1,1,1,1,1,1] : List Int).map PyVal.intVal) "t").2⟩

/-- C4 counterexample: at total 15 the code returns the label
"moderately severe" (with a space), not "moderately-severe". -/
theorem grade_phq9_hyphen_counterexample :
    grade_phq9 15 = "moderately severe" ∧ grade_phq9 15 ≠ "moderately-severe" := by
  decide

/-- C4 (amended): for every total in 0..27 the severity level follows the band
table with first-`<=`-match-wins semantics, the moderately-severe band label
being the string "moderately severe"; all nine boundary values map as listed. -/
theorem grade_phq9_bands (total : Int) (h0 : 0 ≤ total) (h27 : total ≤ 27) :
    (total ≤ 4 → grade_phq9 total = "none-minimal") ∧
    (5 ≤ total → total ≤ 9 → grade_phq9 total = "mild") ∧
    (10 ≤ total → total ≤ 14 → grade_phq9 total = "moderate") ∧
    (15 ≤ total → total ≤ 19 → grade_phq9 total = "moderately severe") ∧
    (20 ≤ total → grade_phq9 total = "severe") ∧
    grade_phq9 4 = "none-minimal" ∧ grade_phq9 5 = "mild" ∧ grade_phq9 9 = "mild" ∧
    grade_phq9 10 = "moderate" ∧ grade_phq9 14 = "moderate" ∧
    grade_phq9 15 = "moderately severe" ∧ grade_phq9 19 = "moderately severe" ∧
    grade_phq9 20 = "severe" ∧ grade_phq9 27 = "severe" := by
  refine ⟨?_, ?_, ?_, ?_, ?_, by decide, by decide, by decide, by decide, by decide,
    by decide, by decide, by decide, by decide⟩ <;>
    (intros; unfold grade_phq9; split_ifs <;> first | rfl | omega)

/-- C4 witness: the band theorem instantiated at total 15. -/
theorem grade_phq9_bands_witness :
    (0 : Int) ≤ 15 ∧ (15 : Int) ≤ 27 ∧ grade_phq9 15 = "moderately severe" :=
  ⟨by decide, by decide,
    (grade_phq9_bands 15 (by decide) (by decide)).2.2.2.1 (by decide) (by decide)⟩

/-- C5: the gate lower-cases the input and answers true exactly when some
keyword of the fixed bilingual list is a substring of the lower-cased text;
the three documented examples evaluate as specified. -/
theorem contains_sensitive_spec :
    (∀ s : String, contains_sensitive (some s) = true ↔
      ∃ k ∈ SENSITIVE_KEYWORDS, k.data <:+: (pyLower s).data) ∧
    contains_sensitive (some "I want to kill myself") = true ∧
    contains_sensitive (some "I KILL MYSELF in this video game") = true ∧
    contains_sensitive (some "I feel okay today") = false := by
  refine ⟨?_, by decide, by decide, by decide⟩
  intro s
  by_cases hs : s = ""
  · subst hs
    rw [show contains_sensitive (some "") = false from by decide]
    simp only [Bool.false_eq_true, false_iff]
    rintro ⟨k, hk, hinf⟩
    have hdata : (pyLower "").data = [] := by decide
    rw [hdata, List.infix_nil] at hinf
    have hall : ∀ x ∈ SENSITIVE_KEYWORDS, x.data ≠ [] := by decide
    exact hall k hk hinf
  · simp only [contains_sensitive]
    rw [if_neg hs]
    simp only [List.any_eq_true, decide_eq_true_eq]

/-- C8: the gate is total and never fails: it returns false on null and on the
empty string, and yields a definite boolean on every input. -/
theorem contains_sensitive_total :
    contains_sensitive none = false ∧ contains_sensitive (some "") = false ∧
    ∀ t : Option String, contains_sensitive t = true ∨ contains_sensitive t = false := by
  refine ⟨rfl, rfl, fun t => ?_⟩
  cases h : contains_sensitive t
  · exact Or.inr rfl
  · exact Or.inl rfl

/-- C3: a non-empty message caught by the sensitive-content gate makes `chat`
return the fixed crisis payload with its non-empty hotline list, leaves the
stored history untouched, and never invokes the generation backend. -/
theorem chat_crisis_short_circuit (svc : AiService) (now : String)
    (history : List ChatRecord) (rawMessage : String)
    (hne : pyStrip rawMessage ≠ "")
    (hsens : contains_sensitive (some (pyStrip rawMessage)) = true) :
    chat svc now history rawMessage =
      ⟨ChatResponse.crisis CRISIS_MESSAGE CRISIS_HOTLINES, history, false⟩ ∧
    CRISIS_HOTLINES ≠ [] := by
  refine ⟨?_, by decide⟩
  simp only [chat]
  rw [if_neg hne, if_pos hsens]

/-- C3 witness: the message "I want to kill myself" with an available backend
and empty prior history. -/
theorem chat_crisis_short_circuit_witness :
    chat ⟨true, fun _ _ => GenResult.mk true "generated" "m"⟩ "t" [] "I want to kill myself" =
      ⟨ChatResponse.crisis CRISIS_MESSAGE CRISIS_HOTLINES, [], false⟩ ∧
    CRISIS_HOTLINES ≠ [] :=
  chat_crisis_short_circuit ⟨true, fun _ _ => GenResult.mk true "generated" "m"⟩ "t" []
    "I want to kill myself" (by decide) (by decide)

/-- C9: for a non-sensitive non-empty message, whenever the backend is
unavailable or its generation fails, `chat` still answers with a support
response carrying a non-empty message, not an error. -/
theorem chat_fallback_nonempty (svc : AiService) (now : String)
    (history : List ChatRecord) (rawMessage : String)
    (hspec : svc.FallbackNonEmpty)
    (hne : pyStrip rawMessage ≠ "")
    (hsens : contains_sensitive (some (pyStrip rawMessage)) = false)
    (hfail : svc.is_available = false ∨
      (svc.generate_response (pyStrip rawMessage)
        (chatContext (lastN 10 history))).success = false) :
    ∃ m mo, (chat svc now history rawMessage).response = ChatResponse.support m mo ∧
      m ≠ "" := by
  simp only [chat]
  rw [if_neg hne, if_neg (by simp [hsens])]
  by_cases hav : svc.is_available = false
  · rw [if_pos hav]
    exact ⟨FALLBACK_UNAVAILABLE, none, rfl, by decide⟩
  · rw [if_neg hav]
    have hfl : (svc.generate_response (pyStrip rawMessage)
        (chatContext (lastN 10 history))).success = false := by
      rcases hfail with h | h
      · exact absurd h hav
      · exact h
    rw [if_neg (by simp [hfl])]
    exact ⟨_, none, rfl, hspec _ _ hfl⟩

/-- C9 witness: an unavailable backend and the benign message "hello". -/
theorem chat_fallback_nonempty_witness :
    ∃ m mo, (chat ⟨false, fun _ _ => GenResult.mk false "fallback" "m"⟩ "t" []
        "hello").response = ChatResponse.support m mo ∧ m ≠ "" :=
  chat_fallback_nonempty ⟨false, fun _ _ => GenResult.mk false "fallback" "m"⟩ "t" []
    "hello" (fun _ _ _ => show ("fallback" : String) ≠ "" by decide)
    (by decide) (by decide) (Or.inl rfl)

/-- C10: the 50-entry bound on the stored per-client history is an invariant
of `chat`: any call starting from a history within the bound ends within the
bound, the successful-generation path trimming to the 50 most recent entries. -/
theorem chat_history_bound (svc : AiService) (now : String)
    (history : List ChatRecord) (rawMessage : String)
    (h : history.length ≤ 50) :
    (chat svc now history rawMessage).chats.length ≤ 50 := by
  simp only [chat]
  split_ifs with h1 h2 h3 h4 h5
  · exact h
  · exact h
  · exact h
  · simp only [lastN, List.length_drop]
    omega
  · dsimp only
    omega
  · exact h

/-- C10 witness: a successful generation starting from the empty history. -/
theorem chat_history_bound_witness :
    (chat ⟨true, fun _ _ => GenResult.mk true "ok" "m"⟩ "t" [] "hello").chats.length ≤ 50 :=
  chat_history_bound ⟨true, fun _ _ => GenResult.mk true "ok" "m"⟩ "t" [] "hello" (by decide)

end WellnessBackend
